import Mathlib

/-!
# Verification of the HTTP job queue (`http_job_queue.go`)

This file is a shallow embedding of the job-acquisition pipeline of the
HTTP job queue of the worker: the job-id fetcher (`fetchJobID`), the job-detail
fetcher (`fetchJob`), the per-attempt poll state machine (`pollForJobs`),
and the queue facade (`Jobs`, `Name`, `Cleanup`).

Machine integers (`uint64`) are modelled as `Nat`; where the 64-bit bound
matters (`strconv.ParseUint(s, 10, 64)`), the bound `2 ^ 64` is explicit.
HTTP I/O is modelled by passing the responses of the environment as explicit
inputs, and goroutine/channel state by explicit state passing: a channel
reference is a `Nat` identity, and values sent on the build-job channel
during one poll attempt are collected in a list.
-/

namespace Worker

/-- One processor of the external processor pool, as seen through the
`ProcessorEacherSizer` interface: the fields `fetchJobID` reads are
`p.CurrentStatus` and `p.LastJobID` (a `uint64`). -/
structure Processor where
  currentStatus : String
  lastJobID : Nat
deriving DecidableEq, Repr

/-- `strconv.FormatUint(n, 10)`: decimal representation of a `uint64`. -/
def formatUint10 (n : Nat) : String :=
  Nat.repr n

/-- Value of a digit string read left to right in base 10. -/
def digitsToNat (cs : List Char) : Nat :=
  cs.foldl (fun acc c => acc * 10 + (c.toNat - 48)) 0

/-- `strconv.ParseUint(s, 10, 64)`: accepts a non-empty all-digit string
whose value fits in 64 bits; `none` models a parse error. The string is
inspected through its character list. -/
def parseUint64 (s : String) : Option Nat :=
  if s.data = [] then none
  else if s.data.all (fun c => c.isDigit) then
    let n := digitsToNat s.data
    if n < 2 ^ 64 then some n else none
  else none

/-- The request body built at the top of `fetchJobID`: the `Each` callback of the pool
appends `strconv.FormatUint(p.LastJobID, 10)` for every processor
whose `CurrentStatus` is `"processing"`, in iteration order. -/
def inFlightIDs (pool : List Processor) : List String :=
  pool.foldl
    (fun acc p =>
      if p.currentStatus = "processing" then acc ++ [formatUint10 p.lastJobID] else acc)
    []

/-- Outcome of `fetchJobID` past the HTTP layer: the selection loop either
returns the first surviving id, a parse error naming the offending
candidate string, or the dedicated `httpJobQueueNoJobsErr`. The HTTP and
JSON-decode failure modes of the full function are included for
completeness of the error taxonomy. -/
inductive FetchJobIDOutcome where
  | ok (id : Nat)
  | parseError (badID : String)
  | noJobsAvailable
  | httpError
  | decodeError
deriving DecidableEq, Repr

/-- The candidate loop of `fetchJobID` (lines 208–226): walk the response
ids in order; an id equal (as a string) to some id of the request payload
is skipped; every other id is parsed with `strconv.ParseUint(_, 10, 64)`,
a failure aborting the whole call with the parse error of that candidate;
parsed values of the survivors are collected in order. -/
def filterParseJobs (inflight : List String) : List String → Except String (List Nat)
  | [] => Except.ok []
  | strID :: rest =>
    if inflight.contains strID then
      filterParseJobs inflight rest
    else
      match parseUint64 strID with
      | none => Except.error strID
      | some id =>
        match filterParseJobs inflight rest with
        | Except.error e => Except.error e
        | Except.ok ids => Except.ok (id :: ids)

/-- `fetchJobID` after the HTTP response is decoded (lines 208–233):
run the candidate loop, then return `httpJobQueueNoJobsErr` when no ids
remain, and the first collected id otherwise. `inflight` is the id list of the request
payload, `resp` the id list of the decoded response. -/
def fetchJobIDCore (inflight resp : List String) : FetchJobIDOutcome :=
  match filterParseJobs inflight resp with
  | Except.error s => FetchJobIDOutcome.parseError s
  | Except.ok [] => FetchJobIDOutcome.noJobsAvailable
  | Except.ok (id :: _) => FetchJobIDOutcome.ok id

/-- The candidates that survive the in-flight filter, in response order
(specification-level view of the skip test of the candidate loop). -/
def survivingCandidates (inflight resp : List String) : List String :=
  resp.filter (fun s => ¬ inflight.contains s)

/-! Lemmas about the candidate loop -/

theorem survivingCandidates_nil (inflight : List String) :
    survivingCandidates inflight [] = [] := rfl

theorem survivingCandidates_cons (inflight : List String) (s : String)
    (rest : List String) :
    survivingCandidates inflight (s :: rest) =
      if inflight.contains s then survivingCandidates inflight rest
      else s :: survivingCandidates inflight rest := by
  by_cases hmem : inflight.contains s <;>
    simp [survivingCandidates, List.filter_cons, hmem]

/-- If every surviving candidate parses, the loop collects exactly the
parsed survivors in order. -/
theorem filterParseJobs_all_parse (inflight : List String) :
    ∀ resp : List String,
      (∀ s ∈ survivingCandidates inflight resp, (parseUint64 s).isSome) →
      filterParseJobs inflight resp =
        Except.ok ((survivingCandidates inflight resp).filterMap parseUint64) := by
  intro resp
  induction resp with
  | nil => intro _; rfl
  | cons s rest ih =>
    intro h
    rw [survivingCandidates_cons] at h ⊢
    by_cases hmem : inflight.contains s
    · have hmem' : s ∈ inflight := by simpa using hmem
      rw [if_pos hmem] at h ⊢
      simpa [filterParseJobs, hmem'] using ih h
    · have hmem' : s ∉ inflight := by simpa using hmem
      rw [if_neg hmem] at h ⊢
      have hs : (parseUint64 s).isSome := h s (List.mem_cons_self s _)
      cases hparse : parseUint64 s with
      | none => rw [hparse] at hs; simp at hs
      | some id =>
        have hrest : ∀ t ∈ survivingCandidates inflight rest, (parseUint64 t).isSome :=
          fun t ht => h t (List.mem_cons_of_mem s ht)
        simp [filterParseJobs, hmem', hparse, ih hrest, List.filterMap_cons]

/-- If some surviving candidate fails to parse, the loop aborts with a parse
error naming some unparseable surviving candidate. -/
theorem filterParseJobs_bad_parse (inflight : List String) :
    ∀ resp : List String, ∀ bad ∈ survivingCandidates inflight resp,
      parseUint64 bad = none →
      ∃ b ∈ survivingCandidates inflight resp,
        parseUint64 b = none ∧ filterParseJobs inflight resp = Except.error b := by
  intro resp
  induction resp with
  | nil => intro bad hbad; simp [survivingCandidates_nil] at hbad
  | cons s rest ih =>
    intro bad hbad hbadparse
    rw [survivingCandidates_cons] at hbad ⊢
    by_cases hmem : inflight.contains s
    · have hmem' : s ∈ inflight := by simpa using hmem
      rw [if_pos hmem] at hbad ⊢
      rcases ih bad hbad hbadparse with ⟨b, hb, hbparse, heq⟩
      exact ⟨b, hb, hbparse, by simpa [filterParseJobs, hmem'] using heq⟩
    · have hmem' : s ∉ inflight := by simpa using hmem
      rw [if_neg hmem] at hbad ⊢
      cases hparse : parseUint64 s with
      | none =>
        exact ⟨s, List.mem_cons_self s _, hparse, by simp [filterParseJobs, hmem', hparse]⟩
      | some id =>
        have hbad' : bad ∈ survivingCandidates inflight rest := by
          rcases List.mem_cons.mp hbad with hb | hb
          · exfalso; rw [hb, hparse] at hbadparse; exact Option.noConfusion hbadparse
          · exact hb
        rcases ih bad hbad' hbadparse with ⟨b, hb, hbparse, heq⟩
        exact ⟨b, List.mem_cons_of_mem s hb, hbparse,
          by simp [filterParseJobs, hmem', hparse, heq]⟩

/-! The queue structure and the id-fetch HTTP request -/

/-- The `HTTPJobQueue` struct. The processor pool is reached only through
`Each` and `Size`, modelled as a list iterated in order whose length is the
size; the build-job channel reference is a channel identity (`Nat`) or
absent; the mutex serialises `Jobs` calls and carries no data, so it is not
a field of the model. -/
structure HTTPJobQueue where
  processors : List Processor
  jobBoardURL : String
  site : String
  providerName : String
  queue : String
  workerID : String
  buildJobChan : Option Nat
  pollInterval : Nat
  DefaultLanguage : String
  DefaultDist : String
  DefaultGroup : String
  DefaultOS : String
deriving DecidableEq, Repr

/-- An outgoing HTTP request as `fetchJobID` assembles it: method, path on
the job-board URL, added query parameters in `Add` order, added headers in
`Add` order, and the id list serialised into the JSON body. -/
structure HTTPRequest where
  method : String
  path : String
  query : List (String × String)
  headers : List (String × String)
  bodyJobs : List String
deriving DecidableEq, Repr

/-- The request of `fetchJobID` (lines 161–193): body ids from the pool
scan, `POST` on path `/jobs`, query parameters `count=1`,
`capacity=<pool size>` (`strconv.Itoa(q.processors.Size())`),
`queue=<queue name>`, and the three added headers. -/
def buildFetchJobIDRequest (q : HTTPJobQueue) : HTTPRequest :=
  { method := "POST"
    path := "/jobs"
    query := [("count", "1"), ("capacity", Nat.repr q.processors.length),
      ("queue", q.queue)]
    headers := [("Content-Type", "application/json"), ("Travis-Site", q.site),
      ("From", q.workerID)]
    bodyJobs := inFlightIDs q.processors }

/-! The queue facade -/

/-- What one `Jobs` call returns and does: the next queue state, the channel
reference handed to the caller, the returned error value, and whether a new
poll-loop goroutine was launched. -/
structure JobsResult where
  queueAfter : HTTPJobQueue
  outChan : Nat
  err : Option String
  loopStarted : Bool
deriving DecidableEq, Repr

/-- `Jobs` (lines 89–114), with the mutex making the check-and-create step
atomic: when a channel is stored, return it unchanged; otherwise make a
fresh channel (`freshChan` is the identity the runtime allocates for
`make(chan Job)`), launch the poll loop, store the channel, and return it.
The returned error is always `nil`. -/
def HTTPJobQueue.Jobs (q : HTTPJobQueue) (freshChan : Nat) : JobsResult :=
  match q.buildJobChan with
  | some c => { queueAfter := q, outChan := c, err := none, loopStarted := false }
  | none =>
      { queueAfter := { q with buildJobChan := some freshChan }
        outChan := freshChan
        err := none
        loopStarted := true }

/-- `Name` returns the name of this queue type (lines 327–329). -/
def HTTPJobQueue.Name (_ : HTTPJobQueue) : String := "http"

/-- `Cleanup` does not do anything (lines 332–334): it returns a `nil`
error and touches nothing. -/
def HTTPJobQueue.Cleanup (_ : HTTPJobQueue) : Option String := none

/-! The poll state machine -/

/-- The `httpPollState` pseudo-enum. -/
inductive HttpPollState where
  | httpPollStateSleep
  | httpPollStateContinue
  | httpPollStateBreak
deriving DecidableEq, Repr

/-- The environment one `pollForJobs` attempt observes: whether the ready
channel fired before the `pollInterval` timeout, the outcome of
`fetchJobID` if attempted, the outcome of `fetchJob` if attempted
(`none` models a non-nil error), and whether `ctx.Done()` is already
signalled when the post-delivery check runs. -/
structure PollAttemptEnv (Job : Type) where
  readyFired : Bool
  idFetch : FetchJobIDOutcome
  jobFetch : Option Job
  ctxDone : Bool

/-- What one `pollForJobs` attempt produces: the returned pseudo-state, the
values sent on `buildJobChan` in order (`none` is the nil job), and the
queue state afterwards. -/
structure PollAttemptResult (Job : Type) where
  state : HttpPollState
  sent : List (Option Job)
  queueAfter : HTTPJobQueue

/-- `pollForJobs` (lines 116–157). The ready branch: a `fetchJobID` error
returns `httpPollStateSleep` at once; a `fetchJob` error sends a nil job
and returns `httpPollStateSleep` at once; on success the job is sent and
the `ctx.Done()` select runs — if done, `q.buildJobChan` is cleared and
`httpPollStateBreak` returned, else fall through to `httpPollStateSleep`.
The timeout branch returns `httpPollStateContinue` directly. -/
def HTTPJobQueue.pollForJobs {Job : Type} (q : HTTPJobQueue)
    (env : PollAttemptEnv Job) : PollAttemptResult Job :=
  if env.readyFired then
    match env.idFetch with
    | FetchJobIDOutcome.ok _ =>
      match env.jobFetch with
      | none =>
          { state := HttpPollState.httpPollStateSleep
            sent := [none]
            queueAfter := q }
      | some job =>
          if env.ctxDone then
            { state := HttpPollState.httpPollStateBreak
              sent := [some job]
              queueAfter := { q with buildJobChan := none } }
          else
            { state := HttpPollState.httpPollStateSleep
              sent := [some job]
              queueAfter := q }
    | _ =>
        { state := HttpPollState.httpPollStateSleep
          sent := []
          queueAfter := q }
  else
    { state := HttpPollState.httpPollStateContinue
      sent := []
      queueAfter := q }

/-! The job detail fetcher -/

/-- The fields of `backend.StartAttributes` that this pipeline reads or
writes: the VM type and the four defaultable execution-configuration
fields. An unset field is the empty string. -/
structure StartAttributes where
  language : String
  dist : String
  group : String
  os : String
  vmType : String
deriving DecidableEq, Repr

/-- The part of `JobPayload` that `fetchJob` reads: the VM-type hint
(`buildJob.payload.Data.VMType`). -/
structure JobPayload where
  vmType : String
deriving DecidableEq, Repr

/-- `httpJobPayload`: wrapper whose `Data` is the job payload. -/
structure HttpJobPayload where
  data : JobPayload
deriving DecidableEq, Repr

/-- `jobPayloadStartAttrs`: wrapper whose `Config` is a start-attributes
record parsed from the response body. -/
structure JobPayloadStartAttrs where
  config : StartAttributes
deriving DecidableEq, Repr

/-- `httpJobPayloadStartAttrs`: wrapper whose `Data` holds the
start-attributes wrapper. -/
structure HttpJobPayloadStartAttrs where
  data : JobPayloadStartAttrs
deriving DecidableEq, Repr

/-- Modelled from the spec: `backend.StartAttributes.SetDefaults` is called
at line 321 but declared outside the given sources. The spec: configured
defaults (language, distro, group, OS, VM type) are applied "for any fields
left unset — defaulting must not override an explicitly present value"; an
unset string field is the empty string. -/
def StartAttributes.SetDefaults (attrs : StartAttributes)
    (lang dist group os vmType : String) : StartAttributes :=
  { language := if attrs.language = "" then lang else attrs.language
    dist := if attrs.dist = "" then dist else attrs.dist
    group := if attrs.group = "" then group else attrs.group
    os := if attrs.os = "" then os else attrs.os
    vmType := if attrs.vmType = "" then vmType else attrs.vmType }

/-- One HTTP call made inside the retry loop of `fetchJob`: either the
transport fails, or a response with a status code and a body arrives. -/
inductive HTTPAttempt where
  | transportError
  | response (status : Nat) (body : String)
deriving DecidableEq, Repr

/-- The retried operation (lines 276–291): a transport error is returned as
is; a response with status other than 200 yields the error
`expected 200 but got <status>`; a 200 response succeeds with its body. -/
def attemptOutcome : HTTPAttempt → Except String String
  | HTTPAttempt.transportError => Except.error "transport error"
  | HTTPAttempt.response status body =>
      if status = 200 then Except.ok body
      else Except.error ("expected 200 but got " ++ Nat.repr status)

/-- Whether the retried operation closes the response body before returning
(lines 284–286): exactly when a response arrived with a non-200 status. -/
def closesBodyInAttempt : HTTPAttempt → Bool
  | HTTPAttempt.transportError => false
  | HTTPAttempt.response status _ => status ≠ 200

/-- The two fields of `backoff.NewExponentialBackOff()` that `fetchJob`
overrides (lines 271–273), in seconds. -/
structure ExponentialBackOff where
  maxIntervalSeconds : Nat
  maxElapsedTimeSeconds : Nat
deriving DecidableEq, Repr

/-- The backoff configuration of `fetchJob`: `MaxInterval = 10 * time.Second`,
`MaxElapsedTime = 1 * time.Minute`. -/
def fetchJobBackOff : ExponentialBackOff :=
  { maxIntervalSeconds := 10, maxElapsedTimeSeconds := 60 }

/-- `backoff.Retry` applied to `attemptOutcome`, over the finite sequence
of outcomes the elapsed-time budget admits: the first success ends the
loop; while further attempts are admitted a failure retries; when the
budget ends, the last error is surfaced. -/
def backoffRetry : List HTTPAttempt → Except String String
  | [] => Except.error "no attempt admitted"
  | a :: rest =>
      match attemptOutcome a, rest with
      | Except.ok body, _ => Except.ok body
      | Except.error e, [] => Except.error e
      | Except.error _, b :: bs => backoffRetry (b :: bs)

/-- The error modes of `fetchJob`: retry exhaustion at the HTTP layer, or a
decode failure at one of the three parses of the 200 body. -/
inductive FetchJobError where
  | httpError (msg : String)
  | payloadDecodeError
  | startAttrsDecodeError
  | rawPayloadDecodeError
deriving DecidableEq, Repr

/-- The `httpJob` descriptor as `fetchJob` constructs it: parsed payload,
merged start attributes, the raw `data` subtree (kept abstract as the
string the parse extracted), and the fetch identity. -/
structure HttpJob where
  payload : HttpJobPayload
  startAttributes : StartAttributes
  rawPayload : String
  jobBoardURL : String
  site : String
  workerID : String
deriving DecidableEq, Repr

/-- The environment of one `fetchJob` call: the states of the remote job
board on successive attempts, and the three JSON parses of a body —
`json.Unmarshal` into `httpJobPayload`, `json.Unmarshal` into
`httpJobPayloadStartAttrs`, and `simplejson.NewJson` followed by
`Get("data")` — each `none` on a decode failure. -/
structure FetchJobEnv where
  attempts : List HTTPAttempt
  parsePayload : String → Option HttpJobPayload
  parseStartAttrs : String → Option HttpJobPayloadStartAttrs
  parseRawData : String → Option String

/-- `fetchJob` (lines 236–324) past request construction: run the retried
HTTP call; on success read the body once and parse it three ways, each
failure surfacing at once; then take the parsed start-attributes config,
overwrite its VM type with the VM type of the payload, apply `SetDefaults` with
the configured defaults of the queue and the package VM-type default, and return
the descriptor. `vmTypeDefault` stands for the constant `VMTypeDefault`,
declared outside the given sources. -/
def HTTPJobQueue.fetchJob (q : HTTPJobQueue) (vmTypeDefault : String)
    (env : FetchJobEnv) : Except FetchJobError HttpJob :=
  match backoffRetry env.attempts with
  | Except.error e => Except.error (FetchJobError.httpError e)
  | Except.ok body =>
    match env.parsePayload body with
    | none => Except.error FetchJobError.payloadDecodeError
    | some payload =>
      match env.parseStartAttrs body with
      | none => Except.error FetchJobError.startAttrsDecodeError
      | some startAttrs =>
        match env.parseRawData body with
        | none => Except.error FetchJobError.rawPayloadDecodeError
        | some rawData =>
          let merged :=
            { startAttrs.data.config with vmType := payload.data.vmType }
          Except.ok
            { payload := payload
              startAttributes :=
                merged.SetDefaults q.DefaultLanguage q.DefaultDist
                  q.DefaultGroup q.DefaultOS vmTypeDefault
              rawPayload := rawData
              jobBoardURL := q.jobBoardURL
              site := q.site
              workerID := q.workerID }

/-! Shared lemmas about `fetchJobIDCore` -/

theorem survivingCandidates_not_inflight (inflight resp : List String) :
    ∀ s ∈ survivingCandidates inflight resp, s ∉ inflight := by
  intro s hs
  have := List.of_mem_filter hs
  simpa using this

theorem mem_survivingCandidates (inflight resp : List String) (s : String)
    (hresp : s ∈ resp) (hnin : s ∉ inflight) :
    s ∈ survivingCandidates inflight resp := by
  refine List.mem_filter.mpr ⟨hresp, ?_⟩
  simpa using hnin

theorem fetchJobIDCore_noJobs (inflight resp : List String)
    (h : survivingCandidates inflight resp = []) :
    fetchJobIDCore inflight resp = FetchJobIDOutcome.noJobsAvailable := by
  have hfp := filterParseJobs_all_parse inflight resp (by rw [h]; intro s hs; cases hs)
  rw [h] at hfp
  simp only [List.filterMap_nil] at hfp
  simp [fetchJobIDCore, hfp]

theorem fetchJobIDCore_first (inflight resp : List String) (first : String)
    (rest : List String)
    (hs : survivingCandidates inflight resp = first :: rest)
    (hall : ∀ s ∈ survivingCandidates inflight resp, (parseUint64 s).isSome) :
    ∃ id, parseUint64 first = some id ∧
      fetchJobIDCore inflight resp = FetchJobIDOutcome.ok id := by
  have hfp := filterParseJobs_all_parse inflight resp hall
  rw [hs] at hfp
  have hfirst : (parseUint64 first).isSome :=
    hall first (hs ▸ List.mem_cons_self first rest)
  rcases Option.isSome_iff_exists.mp hfirst with ⟨id, hid⟩
  refine ⟨id, hid, ?_⟩
  rw [List.filterMap_cons, hid] at hfp
  simp [fetchJobIDCore, hfp]

theorem fetchJobIDCore_no_parseError (inflight resp : List String)
    (hall : ∀ s ∈ survivingCandidates inflight resp, (parseUint64 s).isSome) :
    ∀ b, fetchJobIDCore inflight resp ≠ FetchJobIDOutcome.parseError b := by
  intro b
  have hfp := filterParseJobs_all_parse inflight resp hall
  cases hres : (survivingCandidates inflight resp).filterMap parseUint64 with
  | nil => rw [hres] at hfp; simp [fetchJobIDCore, hfp]
  | cons id rest => rw [hres] at hfp; simp [fetchJobIDCore, hfp]

theorem fetchJobIDCore_parseError_of_bad (inflight resp : List String)
    (bad : String) (hbad : bad ∈ survivingCandidates inflight resp)
    (hparse : parseUint64 bad = none) :
    ∃ b ∈ survivingCandidates inflight resp, parseUint64 b = none ∧
      fetchJobIDCore inflight resp = FetchJobIDOutcome.parseError b := by
  rcases filterParseJobs_bad_parse inflight resp bad hbad hparse with
    ⟨b, hb, hbparse, heq⟩
  exact ⟨b, hb, hbparse, by simp [fetchJobIDCore, heq]⟩

/-! Claim theorems: the id-fetch selection (C1, C8, C10) -/

/-- C1, counterexample: in-flight set empty, response `["43", "zz"]`.
Candidates remain after filtering, yet `fetchJobID` neither returns the
"no jobs available" error nor the first remaining id (43): the unparseable
later candidate `"zz"` makes the whole call a parse error. -/
theorem C1_counterexample :
    survivingCandidates [] ["43", "zz"] ≠ [] ∧
    fetchJobIDCore [] ["43", "zz"] = FetchJobIDOutcome.parseError "zz" ∧
    ¬ (fetchJobIDCore [] ["43", "zz"] = FetchJobIDOutcome.noJobsAvailable ∨
       fetchJobIDCore [] ["43", "zz"] = FetchJobIDOutcome.ok 43) := by
  decide

/-- C1 (amended): `fetchJobID` excludes every in-flight candidate; when no
candidates survive the filter (an empty response included) it returns the
dedicated "no jobs available" error; otherwise, provided every surviving
candidate parses as a `uint64`, it returns the first surviving id in
response order. With in-flight `{"42"}`, response `["42","43"]` yields 43
and response `["42"]` yields the "no jobs available" error. -/
theorem C1_fetchJobID_selection (inflight resp : List String) :
    (∀ s ∈ survivingCandidates inflight resp, s ∉ inflight) ∧
    (survivingCandidates inflight resp = [] →
      fetchJobIDCore inflight resp = FetchJobIDOutcome.noJobsAvailable) ∧
    (∀ first rest, survivingCandidates inflight resp = first :: rest →
      (∀ s ∈ survivingCandidates inflight resp, (parseUint64 s).isSome) →
      ∃ id, parseUint64 first = some id ∧
        fetchJobIDCore inflight resp = FetchJobIDOutcome.ok id) ∧
    fetchJobIDCore ["42"] ["42", "43"] = FetchJobIDOutcome.ok 43 ∧
    fetchJobIDCore ["42"] ["42"] = FetchJobIDOutcome.noJobsAvailable := by
  refine ⟨survivingCandidates_not_inflight inflight resp,
    fetchJobIDCore_noJobs inflight resp, ?_, by decide, by decide⟩
  intro first rest hs hall
  exact fetchJobIDCore_first inflight resp first rest hs hall

/-- C1, witness for the amended theorem at in-flight `["42"]`, response
`["42", "43"]`: the sole survivor is `"43"` and the call returns 43. -/
theorem C1_witness :
    fetchJobIDCore ["42"] ["42", "43"] = FetchJobIDOutcome.ok 43 ∧
    "43" ∉ (["42"] : List String) := by
  have h := C1_fetchJobID_selection ["42"] ["42", "43"]
  refine ⟨h.2.2.2.1, ?_⟩
  exact h.1 "43" (by decide)

/-- C8: the in-flight filter compares candidate ids to the raw in-flight
strings by plain string equality: a candidate that is numerically equal to
an in-flight id but formatted differently survives the filter. Concretely,
`"042"` and `"42"` parse to the same number, yet with in-flight `["42"]`
the response `["042"]` is not filtered and 42 is returned. -/
theorem C8_dedup_by_string_equality :
    (∀ inflight resp s, s ∈ resp → s ∉ inflight →
      s ∈ survivingCandidates inflight resp) ∧
    parseUint64 "042" = parseUint64 "42" ∧
    fetchJobIDCore ["42"] ["042"] = FetchJobIDOutcome.ok 42 := by
  refine ⟨?_, by decide, by decide⟩
  intro inflight resp s hresp hnin
  exact mem_survivingCandidates inflight resp s hresp hnin

/-- C8, witness: `"042"` is numerically equal to the in-flight `"42"` but
survives the filter. -/
theorem C8_witness :
    "042" ∈ survivingCandidates ["42"] ["042"] ∧
    fetchJobIDCore ["42"] ["042"] = FetchJobIDOutcome.ok 42 :=
  ⟨C8_dedup_by_string_equality.1 ["42"] ["042"] "042" (by decide) (by decide),
   C8_dedup_by_string_equality.2.2⟩

/-- C10: a surviving candidate that fails to parse makes the whole call a
parse error, even when an earlier candidate already parsed (concretely,
`["7", "zz"]` with nothing in flight); and filtered candidates are never
parsed — when every survivor parses, no parse error can arise (concretely,
the unparseable `"zz"` filtered out by in-flight `["zz"]` causes no error). -/
theorem C10_parse_error_scope :
    (∀ inflight resp bad, bad ∈ survivingCandidates inflight resp →
      parseUint64 bad = none →
      ∃ b ∈ survivingCandidates inflight resp, parseUint64 b = none ∧
        fetchJobIDCore inflight resp = FetchJobIDOutcome.parseError b) ∧
    (∀ inflight resp,
      (∀ s ∈ survivingCandidates inflight resp, (parseUint64 s).isSome) →
      ∀ b, fetchJobIDCore inflight resp ≠ FetchJobIDOutcome.parseError b) ∧
    fetchJobIDCore [] ["7", "zz"] = FetchJobIDOutcome.parseError "zz" ∧
    fetchJobIDCore ["zz"] ["zz", "7"] = FetchJobIDOutcome.ok 7 := by
  refine ⟨?_, ?_, by decide, by decide⟩
  · intro inflight resp bad hbad hparse
    exact fetchJobIDCore_parseError_of_bad inflight resp bad hbad hparse
  · intro inflight resp hall
    exact fetchJobIDCore_no_parseError inflight resp hall

/-- C10, witness: with nothing in flight, `["7", "zz"]` has the unparseable
survivor `"zz"`, and the call is a parse error naming it. -/
theorem C10_witness :
    ∃ b ∈ survivingCandidates [] ["7", "zz"], parseUint64 b = none ∧
      fetchJobIDCore [] ["7", "zz"] = FetchJobIDOutcome.parseError b :=
  C10_parse_error_scope.1 [] ["7", "zz"] "zz" (by decide) (by decide)

/-! Claim theorems: poll state machine and facade (C2, C3, C7, C9) -/

/-- A concrete queue instance used to evaluate the stateful operations. -/
def sampleQueue : HTTPJobQueue :=
  { processors := [{ currentStatus := "processing", lastJobID := 42 }]
    jobBoardURL := "https://job-board.example.org"
    site := "org"
    providerName := "fake"
    queue := "builds.linux"
    workerID := "worker-1"
    buildJobChan := some 1
    pollInterval := 1
    DefaultLanguage := "ruby"
    DefaultDist := "trusty"
    DefaultGroup := "stable"
    DefaultOS := "linux" }

/-- C2, counterexample: readiness fired, the id fetch failed, and the
cancellation context is already done — yet `pollForJobs` returns `Sleep`,
not `Break`, and leaves the stored channel reference in place: the early
return of the id-fetch failure branch never reaches the cancellation
check. -/
theorem C2_counterexample :
    (sampleQueue.pollForJobs
      { readyFired := true
        idFetch := FetchJobIDOutcome.noJobsAvailable
        jobFetch := (none : Option Nat)
        ctxDone := true }).state =
      HttpPollState.httpPollStateSleep ∧
    (sampleQueue.pollForJobs
      { readyFired := true
        idFetch := FetchJobIDOutcome.noJobsAvailable
        jobFetch := (none : Option Nat)
        ctxDone := true }).queueAfter.buildJobChan =
      some 1 := by
  constructor <;> rfl

/-- C2 (amended): only the successful-delivery outcome of a ready attempt
reaches the cancellation check — there, if the context is already
canceled, `pollForJobs` clears the stored channel and returns `Break`, and
otherwise returns `Sleep` leaving the queue unchanged; the id-fetch-failure
and detail-fetch-failure outcomes return `Sleep` without touching the
channel, whether or not the context is canceled. -/
theorem C2_pollForJobs_cancellation {Job : Type} (q : HTTPJobQueue) (id : Nat)
    (j : Job) (jobf : Option Job) (idErr : FetchJobIDOutcome) (done : Bool)
    (hidErr : ∀ n, idErr ≠ FetchJobIDOutcome.ok n) :
    (q.pollForJobs
      { readyFired := true
        idFetch := FetchJobIDOutcome.ok id
        jobFetch := some j
        ctxDone := true }).state =
      HttpPollState.httpPollStateBreak ∧
    (q.pollForJobs
      { readyFired := true
        idFetch := FetchJobIDOutcome.ok id
        jobFetch := some j
        ctxDone := true }).queueAfter.buildJobChan = none ∧
    (q.pollForJobs
      { readyFired := true
        idFetch := FetchJobIDOutcome.ok id
        jobFetch := some j
        ctxDone := false }).state =
      HttpPollState.httpPollStateSleep ∧
    (q.pollForJobs
      { readyFired := true
        idFetch := FetchJobIDOutcome.ok id
        jobFetch := some j
        ctxDone := false }).queueAfter = q ∧
    (q.pollForJobs
      { readyFired := true
        idFetch := idErr
        jobFetch := jobf
        ctxDone := done }).state =
      HttpPollState.httpPollStateSleep ∧
    (q.pollForJobs
      { readyFired := true
        idFetch := idErr
        jobFetch := jobf
        ctxDone := done }).queueAfter = q ∧
    (q.pollForJobs
      { readyFired := true
        idFetch := FetchJobIDOutcome.ok id
        jobFetch := (none : Option Job)
        ctxDone := done }).state =
      HttpPollState.httpPollStateSleep ∧
    (q.pollForJobs
      { readyFired := true
        idFetch := FetchJobIDOutcome.ok id
        jobFetch := (none : Option Job)
        ctxDone := done }).queueAfter = q := by
  refine ⟨rfl, rfl, rfl, rfl, ?_, ?_, ?_, ?_⟩
  · cases idErr with
    | ok n => exact absurd rfl (hidErr n)
    | parseError b => rfl
    | noJobsAvailable => rfl
    | httpError => rfl
    | decodeError => rfl
  · cases idErr with
    | ok n => exact absurd rfl (hidErr n)
    | parseError b => rfl
    | noJobsAvailable => rfl
    | httpError => rfl
    | decodeError => rfl
  · cases done <;> rfl
  · cases done <;> rfl

/-- C2, witness for the amended theorem: on the sample queue, a ready
attempt that delivered job 99 under an already-canceled context breaks and
clears the channel, and one whose id fetch hit "no jobs available" under a
canceled context sleeps with the channel intact. -/
theorem C2_witness :
    (sampleQueue.pollForJobs
      { readyFired := true
        idFetch := FetchJobIDOutcome.ok 43
        jobFetch := some (99 : Nat)
        ctxDone := true }).state = HttpPollState.httpPollStateBreak ∧
    (sampleQueue.pollForJobs
      { readyFired := true
        idFetch := FetchJobIDOutcome.noJobsAvailable
        jobFetch := (some (99 : Nat))
        ctxDone := true }).queueAfter =
      sampleQueue := by
  have h := C2_pollForJobs_cancellation sampleQueue 43 (99 : Nat) (some 99)
    FetchJobIDOutcome.noJobsAvailable true
    (fun n hn => FetchJobIDOutcome.noConfusion hn)
  exact ⟨h.1, h.2.2.2.2.2.1⟩

/-- C3: `Jobs` is idempotent while the channel exists — with no stored
channel, a call stores and returns the freshly made channel and starts one
poll loop; a further call before the reference is cleared returns that same
reference without starting a loop and without changing the queue; a call on
any queue with a stored channel returns it unchanged; and `Jobs` always
returns a `nil` error. -/
theorem C3_Jobs_idempotent (q : HTTPJobQueue) (fresh fresh2 : Nat)
    (hnone : q.buildJobChan = none) :
    (q.Jobs fresh).loopStarted = true ∧
    (q.Jobs fresh).outChan = fresh ∧
    (q.Jobs fresh).queueAfter.buildJobChan = some fresh ∧
    ((q.Jobs fresh).queueAfter.Jobs fresh2).outChan = (q.Jobs fresh).outChan ∧
    ((q.Jobs fresh).queueAfter.Jobs fresh2).loopStarted = false ∧
    ((q.Jobs fresh).queueAfter.Jobs fresh2).queueAfter = (q.Jobs fresh).queueAfter ∧
    (∀ (q2 : HTTPJobQueue) (c f2 : Nat), q2.buildJobChan = some c →
      q2.Jobs f2 =
        ({ queueAfter := q2, outChan := c, err := none,
           loopStarted := false } : JobsResult)) ∧
    (∀ (q3 : HTTPJobQueue) (f3 : Nat), (q3.Jobs f3).err = none) := by
  refine ⟨?_, ?_, ?_, ?_, ?_, ?_, ?_, ?_⟩
  · simp [HTTPJobQueue.Jobs, hnone]
  · simp [HTTPJobQueue.Jobs, hnone]
  · simp [HTTPJobQueue.Jobs, hnone]
  · simp [HTTPJobQueue.Jobs, hnone]
  · simp [HTTPJobQueue.Jobs, hnone]
  · simp [HTTPJobQueue.Jobs, hnone]
  · intro q2 c f2 hsome
    simp [HTTPJobQueue.Jobs, hsome]
  · intro q3 f3
    cases h : q3.buildJobChan <;> simp [HTTPJobQueue.Jobs, h]

/-- C3, witness: on the sample queue with the channel cleared, the first
call returns channel 5 and starts the loop; the second call returns the
same channel 5 without starting a loop. -/
theorem C3_witness :
    ({ sampleQueue with buildJobChan := none }.Jobs 5).outChan = 5 ∧
    ({ sampleQueue with buildJobChan := none }.Jobs 5).loopStarted = true ∧
    (({ sampleQueue with buildJobChan := none }.Jobs 5).queueAfter.Jobs 6).outChan =
      ({ sampleQueue with buildJobChan := none }.Jobs 5).outChan ∧
    (({ sampleQueue with buildJobChan := none }.Jobs 5).queueAfter.Jobs 6).loopStarted =
      false := by
  have h := C3_Jobs_idempotent { sampleQueue with buildJobChan := none } 5 6 rfl
  exact ⟨h.2.1, h.1, h.2.2.2.1, h.2.2.2.2.1⟩

/-- C7: when the id fetch succeeds and the detail fetch fails, the attempt
sends exactly one nil value on the output channel and returns `Sleep`; and
the public `Jobs` call never returns a non-nil error, so the failure is
invisible to the public API except as that nil delivery. -/
theorem C7_nil_delivery {Job : Type} (q : HTTPJobQueue) (id : Nat) (done : Bool) :
    (q.pollForJobs
      { readyFired := true
        idFetch := FetchJobIDOutcome.ok id
        jobFetch := (none : Option Job)
        ctxDone := done }).sent =
      [(none : Option Job)] ∧
    (q.pollForJobs
      { readyFired := true
        idFetch := FetchJobIDOutcome.ok id
        jobFetch := (none : Option Job)
        ctxDone := done }).state =
      HttpPollState.httpPollStateSleep ∧
    (∀ (q2 : HTTPJobQueue) (fresh : Nat), (q2.Jobs fresh).err = none) := by
  refine ⟨rfl, rfl, ?_⟩
  intro q2 fresh
  cases h : q2.buildJobChan <;> simp [HTTPJobQueue.Jobs, h]

/-- C9: every modelled operation preserves the configuration fields: after
`Jobs` and after `pollForJobs` the queue equals the original with at most
the `buildJobChan` field changed, and `Name` and `Cleanup` are pure. The
fetchers (`fetchJobID`, `fetchJob`) are functions of the queue producing no
queue state at all, so they write no field. -/
theorem C9_config_immutable {Job : Type} (q : HTTPJobQueue) (fresh : Nat)
    (env : PollAttemptEnv Job) :
    (q.Jobs fresh).queueAfter =
      { q with buildJobChan := (q.Jobs fresh).queueAfter.buildJobChan } ∧
    (q.pollForJobs env).queueAfter =
      { q with buildJobChan := (q.pollForJobs env).queueAfter.buildJobChan } ∧
    q.Name = "http" ∧
    q.Cleanup = none := by
  refine ⟨?_, ?_, rfl, rfl⟩
  · cases h : q.buildJobChan with
    | none => simp [HTTPJobQueue.Jobs, h]
    | some c =>
      simp only [HTTPJobQueue.Jobs, h]
      rw [← h]
  · obtain ⟨ready, idf, jobf, done⟩ := env
    cases ready
    · rfl
    · cases idf <;> first
        | rfl
        | (cases jobf
           · rfl
           · cases done <;> rfl)

/-! Claim theorems: the id-fetch request (C5) -/

/-- The `Each`-and-append loop collects exactly the formatted ids of the
processing processors, in pool order. -/
theorem inFlightIDs_eq_filter_map (pool : List Processor) :
    inFlightIDs pool =
      (pool.filter (fun p => p.currentStatus = "processing")).map
        (fun p => formatUint10 p.lastJobID) := by
  have go : ∀ (l : List Processor) (acc : List String),
      l.foldl
        (fun acc p =>
          if p.currentStatus = "processing" then acc ++ [formatUint10 p.lastJobID]
          else acc) acc =
        acc ++ (l.filter (fun p => p.currentStatus = "processing")).map
          (fun p => formatUint10 p.lastJobID) := by
    intro l
    induction l with
    | nil => intro acc; simp
    | cons p rest ih =>
      intro acc
      by_cases h : p.currentStatus = "processing" <;>
        simp [List.filter_cons, h, ih, List.append_assoc]
  simpa [inFlightIDs] using go pool []

/-- C5: the id-fetch request body contains exactly the decimal-formatted
last-claimed job ids of the processors whose status is `"processing"` and
no others, and the request is a `POST` to path `/jobs` with query
parameters `count=1`, `capacity=<pool size>`, `queue=<queue name>` and the
`Content-Type`, `Travis-Site` and `From` headers. -/
theorem C5_request_shape (q : HTTPJobQueue) :
    (buildFetchJobIDRequest q).bodyJobs =
      (q.processors.filter (fun p => p.currentStatus = "processing")).map
        (fun p => formatUint10 p.lastJobID) ∧
    (∀ s : String, s ∈ (buildFetchJobIDRequest q).bodyJobs ↔
      ∃ p, p ∈ q.processors ∧ p.currentStatus = "processing" ∧
        s = formatUint10 p.lastJobID) ∧
    (buildFetchJobIDRequest q).method = "POST" ∧
    (buildFetchJobIDRequest q).path = "/jobs" ∧
    (buildFetchJobIDRequest q).query =
      [("count", "1"), ("capacity", Nat.repr q.processors.length),
       ("queue", q.queue)] ∧
    (buildFetchJobIDRequest q).headers =
      [("Content-Type", "application/json"), ("Travis-Site", q.site),
       ("From", q.workerID)] := by
  have hbody : (buildFetchJobIDRequest q).bodyJobs =
      (q.processors.filter (fun p => p.currentStatus = "processing")).map
        (fun p => formatUint10 p.lastJobID) :=
    inFlightIDs_eq_filter_map q.processors
  refine ⟨hbody, ?_, rfl, rfl, rfl, rfl⟩
  intro s
  rw [hbody]
  constructor
  · intro hs
    rcases List.mem_map.mp hs with ⟨p, hp, hps⟩
    have hf := List.mem_filter.mp hp
    exact ⟨p, hf.1, by simpa using hf.2, hps.symm⟩
  · rintro ⟨p, hp, hstat, rfl⟩
    exact List.mem_map.mpr ⟨p, List.mem_filter.mpr ⟨hp, by simpa using hstat⟩, rfl⟩

/-! Claim theorems: the job detail fetcher (C4, C6) -/

/-- Projection used to observe a fetch result: the VM type of the final
start attributes paired with the VM type of the payload, for a successful
fetch. -/
def fetchJobVMTypes : Except FetchJobError HttpJob → Option (String × String)
  | Except.ok job => some (job.startAttributes.vmType, job.payload.data.vmType)
  | Except.error _ => none

/-- Environment for the C4 counterexample: one 200 response whose payload
carries an empty VM type while the start-attributes subtree carries
`"premium"`. -/
def emptyVMTypeEnv : FetchJobEnv :=
  { attempts := [HTTPAttempt.response 200 "jobbody"]
    parsePayload := fun _ => some { data := { vmType := "" } }
    parseStartAttrs := fun _ =>
      some { data := { config :=
        { language := "", dist := "", group := "", os := "",
          vmType := "premium" } } }
    parseRawData := fun _ => some "rawdata" }

/-- C4, counterexample: a successful fetch whose payload VM type is the
empty string ends with VM type `"default"` (the package default) in the
final start attributes — the defaulting step after the forcible overwrite
replaces an empty payload VM type, so the final value differs from the
value found in the payload. -/
theorem C4_counterexample :
    fetchJobVMTypes (sampleQueue.fetchJob "default" emptyVMTypeEnv) =
      some ("default", "") ∧
    ("default" : String) ≠ "" := by
  exact ⟨rfl, by decide⟩

/-- C4 (amended): for every successfully fetched descriptor, the VM type of
the final start attributes equals the VM type found in the payload whenever
the payload VM type is set (non-empty) — whatever the start-attributes
subtree specified; when the payload VM type is empty, the configured
VM-type default is applied instead. -/
theorem C4_vmType_amended (q : HTTPJobQueue) (vmTypeDefault : String)
    (env : FetchJobEnv) (job : HttpJob)
    (h : q.fetchJob vmTypeDefault env = Except.ok job) :
    (job.payload.data.vmType ≠ "" →
      job.startAttributes.vmType = job.payload.data.vmType) ∧
    (job.payload.data.vmType = "" →
      job.startAttributes.vmType = vmTypeDefault) := by
  cases hr : backoffRetry env.attempts with
  | error e => simp [HTTPJobQueue.fetchJob, hr] at h
  | ok body =>
    cases hp : env.parsePayload body with
    | none => simp [HTTPJobQueue.fetchJob, hr, hp] at h
    | some payload =>
      cases hs : env.parseStartAttrs body with
      | none => simp [HTTPJobQueue.fetchJob, hr, hp, hs] at h
      | some sa =>
        cases hraw : env.parseRawData body with
        | none => simp [HTTPJobQueue.fetchJob, hr, hp, hs, hraw] at h
        | some raw =>
          simp only [HTTPJobQueue.fetchJob, hr, hp, hs, hraw,
            Except.ok.injEq] at h
          subst h
          constructor
          · intro hne
            simp only at hne
            simp [StartAttributes.SetDefaults, hne]
          · intro heq
            simp only at heq
            simp [StartAttributes.SetDefaults, heq]

/-- Environment for the C4 witness: one 200 response whose payload VM type
is `"premium"` while the start-attributes subtree says `"standard"`. -/
def presentVMTypeEnv : FetchJobEnv :=
  { attempts := [HTTPAttempt.response 200 "jobbody"]
    parsePayload := fun _ => some { data := { vmType := "premium" } }
    parseStartAttrs := fun _ =>
      some { data := { config :=
        { language := "", dist := "", group := "", os := "",
          vmType := "standard" } } }
    parseRawData := fun _ => some "rawdata" }

/-- The descriptor the sample queue produces on `presentVMTypeEnv`. -/
def presentVMTypeJob : HttpJob :=
  { payload := { data := { vmType := "premium" } }
    startAttributes :=
      { language := "ruby", dist := "trusty", group := "stable",
        os := "linux", vmType := "premium" }
    rawPayload := "rawdata"
    jobBoardURL := "https://job-board.example.org"
    site := "org"
    workerID := "worker-1" }

/-- C4, witness for the amended theorem: with payload VM type `"premium"`
and the subtree saying `"standard"`, the final start attributes carry
`"premium"`. -/
theorem C4_witness :
    presentVMTypeJob.startAttributes.vmType =
      presentVMTypeJob.payload.data.vmType :=
  (C4_vmType_amended sampleQueue "default" presentVMTypeEnv presentVMTypeJob
    rfl).1 (by decide)

/-- C6: the backoff configuration caps the interval at 10 seconds with a
1-minute elapsed budget; the retried operation fails exactly on a transport
error or a non-200 status (closing the response body exactly in the
non-200 case); a failed attempt retries while the budget admits more
attempts and a 200 stops the retry at once; and a decode failure at any of
the three parses of the 200 body surfaces as the corresponding cycle error
immediately, outside the retry loop. -/
theorem C6_retry_design :
    fetchJobBackOff.maxIntervalSeconds = 10 ∧
    fetchJobBackOff.maxElapsedTimeSeconds = 60 ∧
    (∀ a : HTTPAttempt, (∃ e, attemptOutcome a = Except.error e) ↔
      (a = HTTPAttempt.transportError ∨
        ∃ status body, a = HTTPAttempt.response status body ∧ status ≠ 200)) ∧
    (∀ a : HTTPAttempt, closesBodyInAttempt a = true ↔
      ∃ status body, a = HTTPAttempt.response status body ∧ status ≠ 200) ∧
    (∀ (a : HTTPAttempt) (rest : List HTTPAttempt), rest ≠ [] →
      (∃ e, attemptOutcome a = Except.error e) →
      backoffRetry (a :: rest) = backoffRetry rest) ∧
    (∀ (a : HTTPAttempt) (rest : List HTTPAttempt) (body : String),
      attemptOutcome a = Except.ok body →
      backoffRetry (a :: rest) = Except.ok body) ∧
    (∀ (q : HTTPJobQueue) (vmd : String) (env : FetchJobEnv) (body : String),
      backoffRetry env.attempts = Except.ok body →
      env.parsePayload body = none →
      q.fetchJob vmd env = Except.error FetchJobError.payloadDecodeError) ∧
    (∀ (q : HTTPJobQueue) (vmd : String) (env : FetchJobEnv) (body : String)
      (payload : HttpJobPayload),
      backoffRetry env.attempts = Except.ok body →
      env.parsePayload body = some payload →
      env.parseStartAttrs body = none →
      q.fetchJob vmd env = Except.error FetchJobError.startAttrsDecodeError) ∧
    (∀ (q : HTTPJobQueue) (vmd : String) (env : FetchJobEnv) (body : String)
      (payload : HttpJobPayload) (sa : HttpJobPayloadStartAttrs),
      backoffRetry env.attempts = Except.ok body →
      env.parsePayload body = some payload →
      env.parseStartAttrs body = some sa →
      env.parseRawData body = none →
      q.fetchJob vmd env = Except.error FetchJobError.rawPayloadDecodeError) := by
  refine ⟨rfl, rfl, ?_, ?_, ?_, ?_, ?_, ?_, ?_⟩
  · intro a
    cases a with
    | transportError =>
      simp [attemptOutcome]
    | response status body =>
      by_cases h : status = 200 <;> simp [attemptOutcome, h]
  · intro a
    cases a with
    | transportError => simp [closesBodyInAttempt]
    | response status body =>
      by_cases h : status = 200 <;> simp [closesBodyInAttempt, h]
  · intro a rest hne herr
    rcases herr with ⟨e, he⟩
    cases rest with
    | nil => exact absurd rfl hne
    | cons b bs => simp [backoffRetry, he]
  · intro a rest body hok
    cases rest <;> simp [backoffRetry, hok]
  · intro q vmd env body hretry hp
    simp [HTTPJobQueue.fetchJob, hretry, hp]
  · intro q vmd env body payload hretry hp hs
    simp [HTTPJobQueue.fetchJob, hretry, hp, hs]
  · intro q vmd env body payload sa hretry hp hs hraw
    simp [HTTPJobQueue.fetchJob, hretry, hp, hs, hraw]

/-- Environment whose single 200 response has an undecodable payload. -/
def badPayloadEnv : FetchJobEnv :=
  { attempts := [HTTPAttempt.response 200 "jobbody"]
    parsePayload := fun _ => none
    parseStartAttrs := fun _ => none
    parseRawData := fun _ => none }

/-- C6, witness: a transport error followed by an admitted second attempt
retries, and a 200 body whose payload fails to decode surfaces the decode
error without another attempt. -/
theorem C6_witness :
    backoffRetry [HTTPAttempt.transportError, HTTPAttempt.response 200 "ok"] =
      backoffRetry [HTTPAttempt.response 200 "ok"] ∧
    sampleQueue.fetchJob "default" badPayloadEnv =
      Except.error FetchJobError.payloadDecodeError := by
  have h := C6_retry_design
  refine ⟨h.2.2.2.2.1 HTTPAttempt.transportError [HTTPAttempt.response 200 "ok"]
    (by decide) ⟨"transport error", rfl⟩, ?_⟩
  exact h.2.2.2.2.2.2.1 sampleQueue "default" badPayloadEnv "jobbody" rfl rfl

end Worker
